import Mathlib

/-!
Verification of the Conversation Relay Gateway (`cloud-function/main.py`).

The development shallowly embeds the gateway: JSON values become an inductive
`Json` type, Python dictionaries become association lists with first-match
lookup, exceptions become `Except String`, and the external collaborators
(the HMAC routine, the `json.loads` parser and the Gemini model client)
become function parameters.  Every definition mirrors the corresponding
Python function of `main.py`; spec-side definitions used for refinement
comparisons carry `spec` in their name.
-/

set_option autoImplicit false

namespace RelayGateway

/-- JSON values, as produced by `json.loads`.  Objects keep key order; Python
dictionaries obtained from JSON have unique keys, so first-match lookup agrees
with Python dictionary access.  A number is a decimal mantissa/exponent pair
`num m e` denoting `m · 10 ^ (-e)` (so `0.95` is `num 95 2`); the gateway
never does arithmetic on numbers — it only stores and forwards them — so the
representation only needs to distinguish the literals that occur. -/
inductive Json where
  | null : Json
  | bool : Bool → Json
  | num : Int → Nat → Json
  | str : String → Json
  | arr : List Json → Json
  | obj : List (String × Json) → Json

/-- The top-level keys of a JSON object (`[]` for non-objects); a convenient
decidable projection for telling JSON values apart. -/
def Json.objKeys : Json → List String
  | Json.obj kvs => kvs.map (fun p => p.1)
  | _ => []

/-- First-match lookup in a JSON object's key/value list, modelling Python
`d[k]` / `k in d` on a dictionary with unique keys. -/
def dictLookup (kvs : List (String × Json)) (k : String) : Option Json :=
  (kvs.find? (fun p => p.1 == k)).map (fun p => p.2)

/-- Membership test, modelling Python `k in d`. -/
def dictHasKey (kvs : List (String × Json)) (k : String) : Bool :=
  kvs.any (fun p => p.1 == k)

/-- Python `d[k] = v` on a dictionary: replace the value in place when the key
is present (keeping its position), otherwise append the new pair. -/
def dictSet : List (String × Json) → String → Json → List (String × Json)
  | [], k, v => [(k, v)]
  | (k1, v1) :: rest, k, v =>
    if k1 == k then (k, v) :: rest else (k1, v1) :: dictSet rest k v

/-- Python `d.update(u)`: set every pair of `u` into `d`, in order. -/
def dictUpdate (d : List (String × Json)) (u : List (String × Json)) :
    List (String × Json) :=
  u.foldl (fun acc p => dictSet acc p.1 p.2) d

/-- Python `x is None`, with JSON `null` standing for Python `None`. -/
def Json.isNull : Json → Bool
  | Json.null => true
  | _ => false

/-- Python truthiness of a JSON value (`if x:`). -/
def Json.truthy : Json → Bool
  | Json.null => false
  | Json.bool b => b
  | Json.num m _ => m != 0
  | Json.str s => !s.isEmpty
  | Json.arr xs => !xs.isEmpty
  | Json.obj kvs => !kvs.isEmpty

/-- Python `item["role"] in ["user", "model"]`: a JSON value equals one of the
two role strings exactly when it is that string. -/
def isAllowedRole (r : Json) : Bool :=
  match r with
  | Json.str "user" => true
  | Json.str "model" => true
  | _ => false

/-- Python `isinstance(p, list) and p != []`. -/
def isNonEmptyList (p : Json) : Bool :=
  match p with
  | Json.arr (_ :: _) => true
  | _ => false

/-- `is_invalid_history`, inner per-item checks (`main.py` lines 31–39):
not a dictionary, missing `role`/`parts`, bad role, empty or non-list parts,
in that order.  Returns the error message, or `none` when the item is fine. -/
def is_invalid_history_item (item : Json) : Option String :=
  match item with
  | Json.obj kvs =>
    match dictLookup kvs "role", dictLookup kvs "parts" with
    | some r, some p =>
      if !isAllowedRole r then
        some "Role must be 'user' or 'model'"
      else if !isNonEmptyList p then
        some "Parts must be a non-empty list"
      else
        none
    | _, _ => some "Each item in history must contain 'role' and 'parts'"
  | _ => some "Each item in history must be a dictionary"

/-- The `for item in history` loop of `is_invalid_history`: the first failing
item's message, or `none`. -/
def is_invalid_history_items : List Json → Option String
  | [] => none
  | item :: rest =>
    match is_invalid_history_item item with
    | some e => some e
    | none => is_invalid_history_items rest

/-- `is_invalid_history` (`main.py` lines 21–41): `none` means valid. -/
def is_invalid_history (history : Json) : Option String :=
  match history with
  | Json.arr items => is_invalid_history_items items
  | _ => some "History must be a list"

/-- Python `d[k]`: raises `KeyError` on a missing key and `TypeError` when the
value is not a dictionary; both surface as exceptions. -/
def getItem (v : Json) (k : String) : Except String Json :=
  match v with
  | Json.obj kvs =>
    match dictLookup kvs k with
    | some x => Except.ok x
    | none => Except.error ("KeyError: " ++ k)
  | _ => Except.error ("TypeError: value is not subscriptable at key " ++ k)

/-- A typed part of a conversation turn (`google.genai.types.Part` as built by
`gemini_generate`): a function call, a function response, or plain text. -/
inductive GPart where
  | functionCall (name : Json) (args : Json) : GPart
  | functionResponse (name : Json) (response : Json) : GPart
  | text (t : Json) : GPart

/-- A typed conversation turn (`types.Content(parts=parts, role=role)`). -/
structure Content where
  role : Json
  parts : List GPart

/-- Classification of one entry of a turn's `parts` list (`main.py` lines
86–107).  A dictionary with a `functionCall` key yields a function-call part,
one with a `functionResponse` key yields a function-response part, a
dictionary with neither key falls through both branches of the inner `if` and
appends nothing (`Except.ok none`), and a non-dictionary entry becomes a text
part. -/
def translate_part (part : Json) : Except String (Option GPart) :=
  match part with
  | Json.obj kvs =>
    match dictLookup kvs "functionCall" with
    | some fc => do
      let name ← getItem fc "name"
      let args ← getItem fc "args"
      Except.ok (some (GPart.functionCall name args))
    | none =>
      match dictLookup kvs "functionResponse" with
      | some fr => do
        let name ← getItem fr "name"
        let resp ← getItem fr "response"
        Except.ok (some (GPart.functionResponse name resp))
      | none => Except.ok none
  | p => Except.ok (some (GPart.text p))

/-- The `for part in x["parts"]` loop (`main.py` lines 85–107), appending the
classified parts in order. -/
def translate_parts : List Json → Except String (List GPart)
  | [] => Except.ok []
  | p :: rest => do
    let hd ← translate_part p
    let tl ← translate_parts rest
    match hd with
    | some g => Except.ok (g :: tl)
    | none => Except.ok tl

/-- One iteration of the `for x in history` loop (`main.py` lines 83–108):
read `x["role"]` and `x["parts"]` and translate the parts.  Iterating a
non-list `parts` value is modelled as an error; after `is_invalid_history`
passed, `parts` is always a non-empty list. -/
def translate_turn (x : Json) : Except String Content := do
  let role ← getItem x "role"
  let partsJson ← getItem x "parts"
  match partsJson with
  | Json.arr ps => do
    let gps ← translate_parts ps
    Except.ok (Content.mk role gps)
  | _ => Except.error "TypeError: parts is not iterable"

/-- The full `typed_history` construction (`main.py` lines 82–108). -/
def translate_history : List Json → Except String (List Content)
  | [] => Except.ok []
  | x :: rest => do
    let c ← translate_turn x
    let cs ← translate_history rest
    Except.ok (c :: cs)

/-- `default_parameters` (`main.py` lines 70–74). -/
def default_parameters : List (String × Json) :=
  [("temperature", Json.num 1 0),
   ("max_output_tokens", Json.num 8192 0),
   ("top_p", Json.num 95 2)]

/-- The parameter merge (`main.py` lines 77–78): `if parameters:
default_parameters.update(parameters)`.  A truthy non-mapping raises inside
`update`, modelled as an error (unreachable from the claims below, which
supply mappings or falsy values). -/
def merged_parameters (parameters : Json) : Except String (List (String × Json)) :=
  if parameters.truthy then
    match parameters with
    | Json.obj kvs => Except.ok (dictUpdate default_parameters kvs)
    | _ => Except.error "TypeError: parameters is not a mapping"
  else
    Except.ok default_parameters

/-- The `config` dictionary passed to `client.chats.create` (`main.py` lines
110–117).  `dp` always extends `default_parameters`, so the three lookups
always succeed; `Json.null` stands for the unreachable missing-key case.
`response_schema and "application/json" or 'text/plain'` selects the mime
type by Python truthiness. -/
def client_config (dp : List (String × Json)) (response_schema : Json) :
    List (String × Json) :=
  [("temperature", (dictLookup dp "temperature").getD Json.null),
   ("top_p", (dictLookup dp "top_p").getD Json.null),
   ("max_output_tokens", (dictLookup dp "max_output_tokens").getD Json.null),
   ("candidate_count", Json.num 1 0),
   ("response_schema", response_schema),
   ("response_mime_type",
     if response_schema.truthy then Json.str "application/json"
     else Json.str "text/plain")]

/-- Everything `gemini_generate` hands to the external Gemini client: the
model name for `client.chats.create`, the typed history, the `config`
dictionary, and the message given to `chat.send_message`. -/
structure Invocation where
  model : Json
  history : List Content
  config : List (String × Json)
  message : Json

/-- One part of the model's first response candidate
(`response.candidates[0].content.parts[i]`): an optional function call and an
optional text payload, as exposed by the SDK. -/
structure RawPart where
  function_call : Option Json
  text : Option String

/-- The external model client (`client.chats.create` plus
`chat.send_message`), opaque to the gateway: it receives exactly an
`Invocation` and yields the first candidate's parts, or raises. -/
def ModelClient : Type :=
  Invocation → Except String (List RawPart)

/-- The response-normalization loop (`main.py` lines 124–131): a function-call
part is wrapped as `{"functionCall": ...}`; otherwise, when `response_schema`
is truthy the part's text is fed to `json.loads` (`parseJson`; `none` models
a raised `JSONDecodeError`, and a `None` text also raises); otherwise the
part becomes `{"text": ...}`. -/
def normalize_parts (response_schema : Json) (parseJson : String → Option Json) :
    List RawPart → Except String (List Json)
  | [] => Except.ok []
  | part :: rest => do
    let hd ←
      match part.function_call with
      | some fc => Except.ok (Json.obj [("functionCall", fc)])
      | none =>
        if response_schema.truthy then
          match part.text with
          | some s =>
            match parseJson s with
            | some v => Except.ok (Json.obj [("object", v)])
            | none => Except.error "json.loads: invalid JSON in model response"
          | none => Except.error "TypeError: part text is None"
        else
          Except.ok (Json.obj [("text",
            match part.text with
            | some s => Json.str s
            | none => Json.null)])
    let tl ← normalize_parts response_schema parseJson rest
    Except.ok (hd :: tl)

/-- `gemini_generate` (`main.py` lines 67–137): merge parameters, build the
typed history, call the client with the config, normalize the response parts;
the surrounding `try`/`except` re-raises any failure as
`RuntimeError("Gemini model error: ...")`. -/
def gemini_generate (contents : Json) (parameters : Json) (model_name : Json)
    (response_schema : Json) (history : Json) (client : ModelClient)
    (parseJson : String → Option Json) : Except String (List Json) :=
  let body : Except String (List Json) := do
    let dp ← merged_parameters parameters
    let items ←
      match history with
      | Json.arr xs => Except.ok xs
      | _ => Except.error "TypeError: history is not iterable"
    let typed_history ← translate_history items
    let raw ← client (Invocation.mk model_name typed_history
      (client_config dp response_schema) contents)
    normalize_parts response_schema parseJson raw
  match body with
  | Except.ok r => Except.ok r
  | Except.error e => Except.error ("Gemini model error: " ++ e)

/-- An incoming HTTP request, as the handlers see it.  `parsed_body` is the
result of `request.get_json()`: `none` models the exception raised on an
unparseable body. -/
structure Request where
  method : String
  path : String
  x_signature : Option String
  raw_body : String
  parsed_body : Option Json

/-- `get_response_headers` (`main.py` lines 44–50). -/
def get_response_headers : List (String × String) :=
  [("Access-Control-Allow-Origin", "*"),
   ("Access-Control-Allow-Methods", "POST, OPTIONS"),
   ("Access-Control-Allow-Headers", "Content-Type, X-Signature")]

/-- An HTTP response: body, status code, and the headers the handler attached
(`[]` when the Python `return` supplies only a body and a status). -/
structure HttpResponse where
  body : Json
  status : Nat
  headers : List (String × String)

/-- `has_valid_signature` (`main.py` lines 53–64): absent header fails;
otherwise the header is compared (constant-time in Python, plain equality
here) with the HMAC-SHA256 hex digest of the raw body under the process
secret.  `hmacHex` models `hmac.new(secret, data, "sha256").hexdigest()` with
the secret baked in. -/
def has_valid_signature (hmacHex : String → String) (req : Request) : Bool :=
  match req.x_signature with
  | none => false
  | some sig => sig == hmacHex req.raw_body

/-- `{"error": msg}` response bodies. -/
def errorBody (msg : String) : Json :=
  Json.obj [("error", Json.str msg)]

/-- The shared body of the `try` blocks of `generate_content` (`main.py`
lines 150–171) and `cloud_function_entrypoint` (lines 182–202): parse the
body, extract the fields with `dict.get` (so a stored JSON `null` and an
absent key both read as Python `None`), then check history, contents and
signature in that order, and finally call `gemini_generate`.  Any raised
exception — an unparseable body, a non-dictionary body, or a
`gemini_generate` failure — is answered with status 500 and CORS headers;
the 400 and 403 returns carry no headers, the 200 return carries them. -/
def generate_content_core (default_model : String) (hmacHex : String → String)
    (client : ModelClient) (parseJson : String → Option Json)
    (req : Request) : HttpResponse :=
  match req.parsed_body with
  | none =>
    HttpResponse.mk (errorBody "Failed to decode JSON object") 500 get_response_headers
  | some body =>
    match body with
    | Json.obj kvs =>
      let contents := (dictLookup kvs "contents").getD Json.null
      let parameters := (dictLookup kvs "parameters").getD Json.null
      let model_name := (dictLookup kvs "model_name").getD (Json.str default_model)
      let response_schema := (dictLookup kvs "response_schema").getD Json.null
      let history := (dictLookup kvs "history").getD (Json.arr [])
      if (is_invalid_history history).isSome then
        HttpResponse.mk (errorBody "Invalid history format") 400 []
      else if contents.isNull then
        HttpResponse.mk (errorBody "Missing 'contents' parameter") 400 []
      else if !has_valid_signature hmacHex req then
        HttpResponse.mk (errorBody "Invalid signature") 403 []
      else
        match gemini_generate contents parameters model_name response_schema
            history client parseJson with
        | Except.ok parts =>
          HttpResponse.mk (Json.arr parts) 200 get_response_headers
        | Except.error e =>
          HttpResponse.mk (errorBody e) 500 get_response_headers
    | _ =>
      HttpResponse.mk (errorBody "AttributeError: request body is not an object")
        500 get_response_headers

/-- `handle_options_request` (`main.py` lines 211–212). -/
def handle_options_request : HttpResponse :=
  HttpResponse.mk (Json.str "") 204 get_response_headers

/-- The Flask route `generate_content` (`main.py` lines 145–171), default
model `gemini-2.0-flash-exp`. -/
def generate_content (hmacHex : String → String) (client : ModelClient)
    (parseJson : String → Option Json) (req : Request) : HttpResponse :=
  if req.method == "OPTIONS" then handle_options_request
  else generate_content_core "gemini-2.0-flash-exp" hmacHex client parseJson req

/-- `cloud_function_entrypoint` (`main.py` lines 177–208), default model
`gemini-1.5-flash`; unsupported paths are answered 404 with CORS headers. -/
def cloud_function_entrypoint (hmacHex : String → String) (client : ModelClient)
    (parseJson : String → Option Json) (req : Request) : HttpResponse :=
  if req.method == "OPTIONS" then handle_options_request
  else if req.path == "/generate_content" then
    generate_content_core "gemini-1.5-flash" hmacHex client parseJson req
  else
    HttpResponse.mk (errorBody "Unsupported path") 404 get_response_headers

/-! ### Spec-side definitions

The following definitions follow the wording of the specification (not the
code); they exist only to be compared with the code-derived definitions
above. -/

/-- Spec-side validity of one history entry (spec §4.2): an object containing
both `role` and `parts`, with `role ∈ {"user","model"}` and `parts` a
non-empty list. -/
def valid_turn_spec (t : Json) : Bool :=
  match t with
  | Json.obj kvs =>
    match dictLookup kvs "role", dictLookup kvs "parts" with
    | some r, some p => isAllowedRole r && isNonEmptyList p
    | _, _ => false
  | _ => false

/-- Spec-side validity of a whole history (spec §4.2): a list all of whose
elements are valid turns; the empty list passes. -/
def valid_history_spec (h : Json) : Bool :=
  match h with
  | Json.arr items => items.all valid_turn_spec
  | _ => false

/-- Spec-side normalization of a single raw response part (spec §4.5, with
the schema switch read as Python truthiness): a function-call part is emitted
unchanged as `{"functionCall": ...}`; otherwise, under a truthy
`responseSchema` the part's text is parsed as JSON into `{"object": ...}`
and a parse failure is an upstream data-integrity fault; otherwise the part
becomes `{"text": ...}`. -/
def normalize_part_spec (response_schema : Json)
    (parseJson : String → Option Json) (part : RawPart) : Except String Json :=
  match part.function_call with
  | some fc => Except.ok (Json.obj [("functionCall", fc)])
  | none =>
    if response_schema.truthy then
      match part.text with
      | some s =>
        match parseJson s with
        | some v => Except.ok (Json.obj [("object", v)])
        | none => Except.error "json.loads: invalid JSON in model response"
      | none => Except.error "TypeError: part text is None"
    else
      Except.ok (Json.obj [("text",
        match part.text with
        | some s => Json.str s
        | none => Json.null)])

/-! ### Helper lemmas on dictionaries -/

theorem dictLookup_cons (k1 : String) (v1 : Json) (rest : List (String × Json))
    (k : String) :
    dictLookup ((k1, v1) :: rest) k =
      if k1 == k then some v1 else dictLookup rest k := by
  simp only [dictLookup, List.find?]
  by_cases h : k1 == k <;> simp [h]

theorem dictHasKey_cons (k1 : String) (v1 : Json) (rest : List (String × Json))
    (k : String) :
    dictHasKey ((k1, v1) :: rest) k = (k1 == k || dictHasKey rest k) := by
  simp [dictHasKey, List.any_cons]

theorem dictHasKey_eq_lookup_isSome (l : List (String × Json)) (k : String) :
    dictHasKey l k = (dictLookup l k).isSome := by
  induction l with
  | nil => rfl
  | cons p rest ih =>
    obtain ⟨k1, v1⟩ := p
    rw [dictHasKey_cons, dictLookup_cons]
    by_cases h : k1 == k <;> simp [h, ih]

theorem dictLookup_append (xs ys : List (String × Json)) (k : String) :
    dictLookup (xs ++ ys) k = (dictLookup xs k).or (dictLookup ys k) := by
  simp only [dictLookup, List.find?_append]
  cases h : xs.find? (fun p => p.1 == k) <;> simp [h, Option.or]

theorem dictLookup_dictSet (d : List (String × Json)) (k : String) (v : Json)
    (k' : String) :
    dictLookup (dictSet d k v) k' = if k' = k then some v else dictLookup d k' := by
  induction d with
  | nil =>
    rw [show dictSet [] k v = [(k, v)] from rfl, dictLookup_cons]
    by_cases h : k' = k
    · subst h; simp
    · have hb : (k == k') = false := beq_eq_false_iff_ne.mpr (fun hk => h hk.symm)
      rw [hb]
      simp [h, dictLookup]
  | cons p rest ih =>
    obtain ⟨k1, v1⟩ := p
    by_cases h1 : (k1 == k) = true
    · rw [show dictSet ((k1, v1) :: rest) k v = (k, v) :: rest from by
        simp [dictSet, h1]]
      have hk1 : k1 = k := by simpa using h1
      subst hk1
      rw [dictLookup_cons, dictLookup_cons]
      by_cases h : k' = k1
      · subst h; simp
      · have hb : (k1 == k') = false := beq_eq_false_iff_ne.mpr (fun hk => h hk.symm)
        rw [hb]
        simp [h, hb]
    · rw [show dictSet ((k1, v1) :: rest) k v = (k1, v1) :: dictSet rest k v from by
        simp [dictSet, h1]]
      rw [dictLookup_cons, ih, dictLookup_cons]
      by_cases hk1 : (k1 == k') = true
      · have hkk : k1 = k' := by simpa using hk1
        have hne : ¬ k' = k := by
          intro hh
          apply h1
          simp [hkk, hh]
        simp [hk1, hne]
      · simp [hk1]

theorem dictHasKey_reverse (l : List (String × Json)) (k : String) :
    dictHasKey l.reverse k = dictHasKey l k := by
  simp only [dictHasKey]
  induction l with
  | nil => rfl
  | cons p rest ih =>
    rw [List.reverse_cons, List.any_append, ih]
    simp [List.any_cons, Bool.or_comm]

theorem dictLookup_dictUpdate (u d : List (String × Json)) (k : String) :
    dictLookup (dictUpdate d u) k =
      (dictLookup u.reverse k).or (dictLookup d k) := by
  induction u generalizing d with
  | nil => simp [dictUpdate, dictLookup]
  | cons p rest ih =>
    obtain ⟨k1, v1⟩ := p
    have hstep : dictUpdate d ((k1, v1) :: rest) = dictUpdate (dictSet d k1 v1) rest := rfl
    rw [hstep, ih, dictLookup_dictSet, List.reverse_cons, dictLookup_append]
    cases hr : dictLookup rest.reverse k with
    | some v => simp [Option.or]
    | none =>
      simp only [Option.or]
      rw [dictLookup_cons]
      by_cases h : k = k1
      · subst h; simp
      · have hb : (k1 == k) = false := by
          simp only [beq_eq_false_iff_ne]
          exact fun hk => h hk.symm
        simp [hb, h, dictLookup]

theorem dictHasKey_dictUpdate (u d : List (String × Json)) (k : String) :
    dictHasKey (dictUpdate d u) k = (dictHasKey u k || dictHasKey d k) := by
  rw [dictHasKey_eq_lookup_isSome (dictUpdate d u) k, dictLookup_dictUpdate,
    ← dictHasKey_reverse u k, dictHasKey_eq_lookup_isSome u.reverse k,
    dictHasKey_eq_lookup_isSome d k]
  cases hr : dictLookup u.reverse k <;>
    cases hd : dictLookup d k <;> simp [Option.or, hr, hd]

/-! ### Helper lemmas on the history validator -/

theorem is_invalid_history_item_none_iff (t : Json) :
    is_invalid_history_item t = none ↔ valid_turn_spec t = true := by
  cases t <;> simp only [is_invalid_history_item, valid_turn_spec] <;>
    try simp
  case obj kvs =>
    cases hr : dictLookup kvs "role" <;> cases hp : dictLookup kvs "parts" <;>
      simp only []
    case none.none => simp
    case none.some => simp
    case some.none => simp
    case some.some r p =>
      by_cases h1 : isAllowedRole r <;> by_cases h2 : isNonEmptyList p <;>
        simp [h1, h2]

/-- The five literal messages `is_invalid_history` can produce. -/
def history_error_messages : List String :=
  ["History must be a list",
   "Each item in history must be a dictionary",
   "Each item in history must contain 'role' and 'parts'",
   "Role must be 'user' or 'model'",
   "Parts must be a non-empty list"]

theorem is_invalid_history_item_mem (t : Json) (e : String)
    (h : is_invalid_history_item t = some e) : e ∈ history_error_messages := by
  cases t <;> simp only [is_invalid_history_item] at h <;>
    first
    | (cases h; simp [history_error_messages])
    | skip
  case obj kvs =>
    cases hr : dictLookup kvs "role" <;> cases hp : dictLookup kvs "parts" <;>
      rw [hr, hp] at h <;> simp only [] at h
    case some.some r p =>
      by_cases h1 : isAllowedRole r <;> by_cases h2 : isNonEmptyList p <;>
        simp [h1, h2] at h <;> simp [← h, history_error_messages]
    all_goals (cases h; simp [history_error_messages])

theorem is_invalid_history_items_none_iff (items : List Json) :
    is_invalid_history_items items = none ↔ items.all valid_turn_spec = true := by
  induction items with
  | nil => simp [is_invalid_history_items]
  | cons t rest ih =>
    rw [show is_invalid_history_items (t :: rest) =
        (match is_invalid_history_item t with
         | some e => some e
         | none => is_invalid_history_items rest) from rfl]
    cases ht : is_invalid_history_item t with
    | some e =>
      simp only [List.all_cons]
      have : ¬ valid_turn_spec t = true := by
        intro hv
        rw [(is_invalid_history_item_none_iff t).mpr hv] at ht
        cases ht
      simp [this]
    | none =>
      have hv : valid_turn_spec t = true := (is_invalid_history_item_none_iff t).mp ht
      simp [List.all_cons, hv, ih]

theorem is_invalid_history_items_mem (items : List Json) (e : String)
    (h : is_invalid_history_items items = some e) : e ∈ history_error_messages := by
  induction items with
  | nil => cases h
  | cons t rest ih =>
    simp only [is_invalid_history_items] at h
    cases ht : is_invalid_history_item t with
    | some e1 =>
      rw [ht] at h
      simp only [Option.some.injEq] at h
      subst h
      exact is_invalid_history_item_mem t e1 ht
    | none =>
      rw [ht] at h
      exact ih h

/-! ### Helper lemmas on the normalizer -/

theorem normalize_parts_cons (schema : Json) (pj : String → Option Json)
    (p : RawPart) (rest : List RawPart) :
    normalize_parts schema pj (p :: rest) =
      Except.bind (normalize_part_spec schema pj p)
        (fun hd => Except.bind (normalize_parts schema pj rest)
          (fun tl => Except.ok (hd :: tl))) := by
  simp only [normalize_parts, normalize_part_spec]
  cases hf : p.function_call with
  | some fc => rfl
  | none =>
    by_cases hs : schema.truthy = true
    · rw [if_pos hs, if_pos hs]
      cases ht : p.text with
      | some s =>
        cases hpj : pj s with
        | some v =>
          simp only [hpj]
          rfl
        | none =>
          simp only [hpj]
          rfl
      | none => rfl
    · rw [if_neg hs, if_neg hs]
      rfl

theorem normalize_part_spec_falsy (schema : Json) (pj : String → Option Json)
    (p : RawPart) (hs : schema.truthy = false) :
    normalize_part_spec schema pj p = normalize_part_spec Json.null pj p := by
  cases hf : p.function_call with
  | some fc => simp [normalize_part_spec, hf]
  | none =>
    simp only [normalize_part_spec, hf]
    rw [hs]
    rfl

/-! ### The claims -/

/-- C6: history validation is total and exhaustive: `is_invalid_history`
succeeds (returns `none`) exactly on the values described by the spec — a
list each of whose elements is an object containing both `role` and `parts`,
with `role ∈ {"user","model"}` and `parts` a non-empty list — it otherwise
yields exactly one error, drawn from the validator's fixed message set, and
the empty list passes. -/
theorem C6_history_validation_total (h : Json) :
    (is_invalid_history h = none ↔ valid_history_spec h = true)
    ∧ (∀ e : String, is_invalid_history h = some e → e ∈ history_error_messages)
    ∧ is_invalid_history (Json.arr []) = none := by
  refine ⟨?_, ?_, rfl⟩
  · cases h with
    | arr items =>
      simp only [is_invalid_history, valid_history_spec]
      exact is_invalid_history_items_none_iff items
    | null => simp [is_invalid_history, valid_history_spec]
    | bool b => simp [is_invalid_history, valid_history_spec]
    | num m e => simp [is_invalid_history, valid_history_spec]
    | str s => simp [is_invalid_history, valid_history_spec]
    | obj kvs => simp [is_invalid_history, valid_history_spec]
  · intro e he
    cases h with
    | arr items =>
      simp only [is_invalid_history] at he
      exact is_invalid_history_items_mem items e he
    | null => cases he; simp [history_error_messages]
    | bool b => cases he; simp [history_error_messages]
    | num m e0 => cases he; simp [history_error_messages]
    | str s => cases he; simp [history_error_messages]
    | obj kvs => cases he; simp [history_error_messages]

/-- C6 witness: the empty history passes (via the iff at `Json.arr []`), and
a non-list history yields a message from the validator's message set. -/
theorem C6_history_validation_total_witness :
    is_invalid_history (Json.arr []) = none
    ∧ "History must be a list" ∈ history_error_messages :=
  ⟨(C6_history_validation_total (Json.arr [])).1.mpr rfl,
   (C6_history_validation_total (Json.obj [])).2.1 "History must be a list" rfl⟩

/-- C7: parameter merging is a key-by-key shallow merge — a caller key
(looked up Python-style, last occurrence winning) overrides, any other key
keeps its default — and in particular `{"temperature": 0.2}` merges to an
effective configuration with `temperature = 0.2`,
`max_output_tokens = 8192` and `top_p = 0.95`. -/
theorem C7_parameter_shallow_merge (u : List (String × Json)) (k : String) :
    merged_parameters (Json.obj [("temperature", Json.num 2 1)]) =
      Except.ok [("temperature", Json.num 2 1),
        ("max_output_tokens", Json.num 8192 0), ("top_p", Json.num 95 2)]
    ∧ dictLookup (dictUpdate default_parameters [("temperature", Json.num 2 1)])
        "temperature" = some (Json.num 2 1)
    ∧ dictLookup (dictUpdate default_parameters [("temperature", Json.num 2 1)])
        "max_output_tokens" = some (Json.num 8192 0)
    ∧ dictLookup (dictUpdate default_parameters [("temperature", Json.num 2 1)])
        "top_p" = some (Json.num 95 2)
    ∧ dictLookup (client_config (dictUpdate default_parameters
        [("temperature", Json.num 2 1)]) Json.null) "temperature" =
        some (Json.num 2 1)
    ∧ dictLookup (dictUpdate default_parameters u) k =
        (dictLookup u.reverse k).or (dictLookup default_parameters k) :=
  ⟨rfl, rfl, rfl, rfl, rfl, dictLookup_dictUpdate u default_parameters k⟩

/-- C10: a supplied-but-empty `response_schema` of `{}` is falsy in Python,
so the gateway requests mime type `text/plain`, the normalizer behaves
exactly as with no schema at all, and a plain text part comes back as
`{"text": ...}`. -/
theorem C10_empty_schema_behaves_as_absent (dp : List (String × Json))
    (pj : String → Option Json) (ps : List RawPart) (s : String) :
    dictLookup (client_config dp (Json.obj [])) "response_mime_type" =
      some (Json.str "text/plain")
    ∧ normalize_parts (Json.obj []) pj ps = normalize_parts Json.null pj ps
    ∧ normalize_parts (Json.obj []) pj [RawPart.mk none (some s)] =
        Except.ok [Json.obj [("text", Json.str s)]] := by
  refine ⟨rfl, ?_, rfl⟩
  induction ps with
  | nil => rfl
  | cons p rest ih =>
    rw [normalize_parts_cons, normalize_parts_cons, ih,
      normalize_part_spec_falsy (Json.obj []) pj p rfl]

/-- C1 counterexample: a POST to `/generate_content` whose signature is
missing AND whose history is invalid (an object instead of a list) is
answered 400 (Invalid history format), not 403: the handler validates the
history before the signature. -/
theorem C1_counterexample :
    (cloud_function_entrypoint (fun _ => "sig") (fun _ => Except.error "unreachable")
      (fun _ => none)
      (Request.mk "POST" "/generate_content" none "raw"
        (some (Json.obj [("contents", Json.str "hi"),
          ("history", Json.obj [("role", Json.str "user"),
            ("parts", Json.arr [Json.str "x"])])])))) =
      HttpResponse.mk (errorBody "Invalid history format") 400 []
    ∧ (cloud_function_entrypoint (fun _ => "sig") (fun _ => Except.error "unreachable")
      (fun _ => none)
      (Request.mk "POST" "/generate_content" none "raw"
        (some (Json.obj [("contents", Json.str "hi"),
          ("history", Json.obj [("role", Json.str "user"),
            ("parts", Json.arr [Json.str "x"])])])))).status ≠ 403 :=
  ⟨rfl, by decide⟩

/-- C3 counterexample: the 403 invalid-signature response carries no headers
at all (the Python `return` supplies only a body and a status), so in
particular it lacks the CORS headers, which are non-empty. -/
theorem C3_counterexample :
    cloud_function_entrypoint (fun _ => "sig") (fun _ => Except.error "unreachable")
      (fun _ => none)
      (Request.mk "POST" "/generate_content" none "raw"
        (some (Json.obj [("contents", Json.str "hi")]))) =
      HttpResponse.mk (errorBody "Invalid signature") 403 []
    ∧ get_response_headers ≠ [] :=
  ⟨rfl, by decide⟩

/-- C4 counterexample: the history turn
`{"role": "user", "parts": [{}]}` passes validation, but its single entry —
an object with neither `functionCall` nor `functionResponse` — is silently
dropped by the translator (there is no `else` branch for plain objects), so
the translated turn has 0 parts while the entry list has 1. -/
theorem C4_counterexample :
    is_invalid_history (Json.arr [Json.obj [("role", Json.str "user"),
      ("parts", Json.arr [Json.obj []])]]) = none
    ∧ translate_history [Json.obj [("role", Json.str "user"),
        ("parts", Json.arr [Json.obj []])]] =
      Except.ok [Content.mk (Json.str "user") []]
    ∧ (Content.mk (Json.str "user") ([] : List GPart)).parts.length ≠
        [Json.obj ([] : List (String × Json))].length :=
  ⟨rfl, rfl, by decide⟩

/-- C4 (amended): the translator classifies each entry of a turn's parts
list — an object with a `functionCall` key becomes a FunctionCall part, an
object with a `functionResponse` key (and no `functionCall`) becomes a
FunctionResponse part, a non-object entry becomes a Text part, and an object
with neither key is dropped without emitting anything — kept parts appear in
input order, so the translated turn has at most as many parts as the entry
list (fewer exactly when keyless objects occur). -/
theorem C4_translator_classification :
    (∀ p : Json, (∀ kvs : List (String × Json), p ≠ Json.obj kvs) →
       translate_part p = Except.ok (some (GPart.text p)))
    ∧ (∀ (kvs : List (String × Json)) (fc name args : Json),
        dictLookup kvs "functionCall" = some fc →
        getItem fc "name" = Except.ok name →
        getItem fc "args" = Except.ok args →
        translate_part (Json.obj kvs) =
          Except.ok (some (GPart.functionCall name args)))
    ∧ (∀ (kvs : List (String × Json)) (fr name resp : Json),
        dictLookup kvs "functionCall" = none →
        dictLookup kvs "functionResponse" = some fr →
        getItem fr "name" = Except.ok name →
        getItem fr "response" = Except.ok resp →
        translate_part (Json.obj kvs) =
          Except.ok (some (GPart.functionResponse name resp)))
    ∧ (∀ kvs : List (String × Json),
        dictLookup kvs "functionCall" = none →
        dictLookup kvs "functionResponse" = none →
        translate_part (Json.obj kvs) = Except.ok none)
    ∧ (∀ (p : Json) (ps : List Json), translate_part p = Except.ok none →
        translate_parts (p :: ps) = translate_parts ps)
    ∧ (∀ (p : Json) (ps : List Json) (g : GPart),
        translate_part p = Except.ok (some g) →
        translate_parts (p :: ps) =
          (translate_parts ps).map (fun l => g :: l))
    ∧ (∀ (ps : List Json) (gps : List GPart),
        translate_parts ps = Except.ok gps → gps.length ≤ ps.length) := by
  refine ⟨?_, ?_, ?_, ?_, ?_, ?_, ?_⟩
  · intro p hp
    cases p with
    | obj kvs => exact absurd rfl (hp kvs)
    | null => rfl
    | bool b => rfl
    | num m e => rfl
    | str s => rfl
    | arr xs => rfl
  · intro kvs fc name args h1 h2 h3
    simp only [translate_part, h1, h2, h3]
    rfl
  · intro kvs fr name resp h0 h1 h2 h3
    simp only [translate_part, h0, h1, h2, h3]
    rfl
  · intro kvs h0 h1
    simp only [translate_part, h0, h1]
  · intro p ps hp
    simp only [translate_parts, hp]
    cases ht : translate_parts ps with
    | error e => rfl
    | ok tl => rfl
  · intro p ps g hp
    simp only [translate_parts, hp]
    cases ht : translate_parts ps with
    | error e => rfl
    | ok tl => rfl
  · intro ps
    induction ps with
    | nil =>
      intro gps h
      cases h
      simp
    | cons p rest ih =>
      intro gps h
      simp only [translate_parts] at h
      cases hp : translate_part p with
      | error e =>
        rw [hp] at h
        cases h
      | ok og =>
        rw [hp] at h
        cases ht : translate_parts rest with
        | error e =>
          rw [ht] at h
          cases og with
          | none => cases h
          | some g => cases h
        | ok tl =>
          rw [ht] at h
          cases og with
          | none =>
            have hgps : (Except.ok tl : Except String (List GPart)) =
                Except.ok gps := h
            cases hgps
            exact Nat.le_succ_of_le (ih _ ht)
          | some g =>
            have hgps : (Except.ok (g :: tl) : Except String (List GPart)) =
                Except.ok gps := h
            cases hgps
            exact Nat.succ_le_succ (ih _ ht)

/-- C4 witness: at the concrete list `[{}, "x"]` the keyless object is
dropped and the string becomes a text part. -/
theorem C4_translator_classification_witness :
    translate_parts [Json.obj [], Json.str "x"] =
      Except.ok [GPart.text (Json.str "x")] := by
  rw [C4_translator_classification.2.2.2.2.1 (Json.obj []) [Json.str "x"] rfl]
  rfl

/-- C5 counterexample: the unrecognized parameter key `"foo"` survives the
merge into the effective parameter dictionary, but the configuration the
client receives does not contain it — its keys are exactly the six fixed
ones — so unrecognized keys are dropped rather than passed through. -/
theorem C5_counterexample :
    merged_parameters (Json.obj [("foo", Json.num 7 0)]) =
      Except.ok (dictUpdate default_parameters [("foo", Json.num 7 0)])
    ∧ dictHasKey (dictUpdate default_parameters [("foo", Json.num 7 0)]) "foo" = true
    ∧ dictHasKey (client_config (dictUpdate default_parameters
        [("foo", Json.num 7 0)]) Json.null) "foo" = false
    ∧ (client_config (dictUpdate default_parameters [("foo", Json.num 7 0)])
        Json.null).map (fun p => p.1) =
      ["temperature", "top_p", "max_output_tokens", "candidate_count",
       "response_schema", "response_mime_type"] :=
  ⟨rfl, rfl, rfl, rfl⟩

/-- C5 (amended): caller-supplied keys are all merged into the effective
parameter mapping, but the configuration forwarded to the model client
contains exactly the keys `temperature`, `top_p`, `max_output_tokens`,
`candidate_count`, `response_schema` and `response_mime_type`; keys outside
this set — in particular every unrecognized caller key — are not forwarded. -/
theorem C5_unrecognized_keys_dropped (kvs : List (String × Json))
    (schema : Json) (k : String) :
    (client_config (dictUpdate default_parameters kvs) schema).map (fun p => p.1) =
      ["temperature", "top_p", "max_output_tokens", "candidate_count",
       "response_schema", "response_mime_type"]
    ∧ dictHasKey (client_config (dictUpdate default_parameters kvs) schema) k =
        ("temperature" == k || "top_p" == k || "max_output_tokens" == k ||
         "candidate_count" == k || "response_schema" == k ||
         "response_mime_type" == k)
    ∧ dictHasKey (dictUpdate default_parameters kvs) k =
        (dictHasKey kvs k || dictHasKey default_parameters k) := by
  refine ⟨rfl, ?_, ?_⟩
  · simp [dictHasKey, client_config, List.any_cons, List.any_nil, Bool.or_assoc]
  · rw [dictHasKey_dictUpdate]

/-- Evaluation of the cloud-function handler on a non-OPTIONS request to
`/generate_content` whose body parsed to an object: the `try`-block body of
`cloud_function_entrypoint`, spelled out. -/
theorem entrypoint_obj_body (hm : String → String) (cl : ModelClient)
    (pj : String → Option Json) (req : Request) (kvs : List (String × Json))
    (hmeth : (req.method == "OPTIONS") = false)
    (hpath : (req.path == "/generate_content") = true)
    (hbody : req.parsed_body = some (Json.obj kvs)) :
    cloud_function_entrypoint hm cl pj req =
      (if (is_invalid_history ((dictLookup kvs "history").getD (Json.arr []))).isSome then
        HttpResponse.mk (errorBody "Invalid history format") 400 []
      else if ((dictLookup kvs "contents").getD Json.null).isNull then
        HttpResponse.mk (errorBody "Missing 'contents' parameter") 400 []
      else if !has_valid_signature hm req then
        HttpResponse.mk (errorBody "Invalid signature") 403 []
      else
        match gemini_generate ((dictLookup kvs "contents").getD Json.null)
            ((dictLookup kvs "parameters").getD Json.null)
            ((dictLookup kvs "model_name").getD (Json.str "gemini-1.5-flash"))
            ((dictLookup kvs "response_schema").getD Json.null)
            ((dictLookup kvs "history").getD (Json.arr [])) cl pj with
        | Except.ok parts =>
          HttpResponse.mk (Json.arr parts) 200 get_response_headers
        | Except.error e =>
          HttpResponse.mk (errorBody e) 500 get_response_headers) := by
  simp only [cloud_function_entrypoint, hmeth, hpath, Bool.false_eq_true,
    if_false, if_true, generate_content_core, hbody]

/-- C1 (amended): the relay handler checks history and contents before the
HMAC signature: on a POST to `/generate_content` with a parseable object
body, an invalid history is answered 400 regardless of the signature, a
missing/null `contents` is answered 400 regardless of the signature, and a
missing or invalid signature is answered 403 (AuthenticationError) exactly
when history and contents have already validated; any step's failure skips
the remaining steps. -/
theorem C1_validation_precedes_signature (hm : String → String) (cl : ModelClient)
    (pj : String → Option Json) (req : Request) (kvs : List (String × Json))
    (hmeth : req.method ≠ "OPTIONS") (hpath : req.path = "/generate_content")
    (hbody : req.parsed_body = some (Json.obj kvs)) :
    (is_invalid_history ((dictLookup kvs "history").getD (Json.arr [])) ≠ none →
      cloud_function_entrypoint hm cl pj req =
        HttpResponse.mk (errorBody "Invalid history format") 400 [])
    ∧ (is_invalid_history ((dictLookup kvs "history").getD (Json.arr [])) = none →
       ((dictLookup kvs "contents").getD Json.null).isNull = true →
      cloud_function_entrypoint hm cl pj req =
        HttpResponse.mk (errorBody "Missing 'contents' parameter") 400 [])
    ∧ (is_invalid_history ((dictLookup kvs "history").getD (Json.arr [])) = none →
       ((dictLookup kvs "contents").getD Json.null).isNull = false →
       has_valid_signature hm req = false →
      cloud_function_entrypoint hm cl pj req =
        HttpResponse.mk (errorBody "Invalid signature") 403 []) := by
  have hm0 : (req.method == "OPTIONS") = false := beq_eq_false_iff_ne.mpr hmeth
  have hp0 : (req.path == "/generate_content") = true := by simp [hpath]
  have hcore := entrypoint_obj_body hm cl pj req kvs hm0 hp0 hbody
  refine ⟨?_, ?_, ?_⟩
  · intro hinv
    rw [hcore]
    have hsome : (is_invalid_history
        ((dictLookup kvs "history").getD (Json.arr []))).isSome = true :=
      Option.ne_none_iff_isSome.mp hinv
    simp [hsome]
  · intro hinv hcn
    rw [hcore]
    simp [hinv, hcn]
  · intro hinv hcn hsig
    rw [hcore]
    simp [hinv, hcn, hsig]

/-- C1 witness: with history and contents valid and the `X-Signature` header
absent, the handler answers 403. -/
theorem C1_validation_precedes_signature_witness :
    cloud_function_entrypoint (fun _ => "sig") (fun _ => Except.error "unreachable")
      (fun _ => none)
      (Request.mk "POST" "/generate_content" none "raw"
        (some (Json.obj [("contents", Json.str "hi")]))) =
      HttpResponse.mk (errorBody "Invalid signature") 403 [] :=
  (C1_validation_precedes_signature (fun _ => "sig")
    (fun _ => Except.error "unreachable") (fun _ => none)
    (Request.mk "POST" "/generate_content" none "raw"
      (some (Json.obj [("contents", Json.str "hi")])))
    [("contents", Json.str "hi")] (by decide) rfl rfl).2.2 rfl rfl rfl

/-- C9: a POST to `/generate_content` whose body is not parseable JSON is
answered 500 with an error body and CORS headers: the parse exception is
caught by the generic handler before the history, contents or signature
checks can run, so such a request is never answered 403 or 400. -/
theorem C9_unparseable_body_500 (hm : String → String) (cl : ModelClient)
    (pj : String → Option Json) (req : Request)
    (hmeth : req.method ≠ "OPTIONS") (hpath : req.path = "/generate_content")
    (hbody : req.parsed_body = none) :
    cloud_function_entrypoint hm cl pj req =
      HttpResponse.mk (errorBody "Failed to decode JSON object") 500
        get_response_headers
    ∧ (cloud_function_entrypoint hm cl pj req).status ≠ 403
    ∧ (cloud_function_entrypoint hm cl pj req).status ≠ 400 := by
  have hm0 : (req.method == "OPTIONS") = false := beq_eq_false_iff_ne.mpr hmeth
  have hp0 : (req.path == "/generate_content") = true := by simp [hpath]
  have h1 : cloud_function_entrypoint hm cl pj req =
      HttpResponse.mk (errorBody "Failed to decode JSON object") 500
        get_response_headers := by
    simp [cloud_function_entrypoint, hm0, hp0, generate_content_core, hbody]
  refine ⟨h1, ?_, ?_⟩
  · rw [h1]; decide
  · rw [h1]; decide

/-- C9 witness: a concrete unparseable-body request is answered 500. -/
theorem C9_unparseable_body_500_witness :
    cloud_function_entrypoint (fun _ => "sig") (fun _ => Except.error "unreachable")
      (fun _ => none)
      (Request.mk "POST" "/generate_content" (some "sig") "notjson" none) =
      HttpResponse.mk (errorBody "Failed to decode JSON object") 500
        get_response_headers :=
  (C9_unparseable_body_500 (fun _ => "sig") (fun _ => Except.error "unreachable")
    (fun _ => none)
    (Request.mk "POST" "/generate_content" (some "sig") "notjson" none)
    (by decide) rfl rfl).1

/-- C3 (amended): every response of the cloud-function handler carries the
CORS headers except the 400 (invalid history / missing contents) and 403
(invalid signature) responses, whose `return` statements supply no headers:
every response either carries the CORS headers, or has empty headers and
status 400 or 403. -/
theorem C3_cors_headers_except_400_403 (hm : String → String) (cl : ModelClient)
    (pj : String → Option Json) (req : Request) :
    (cloud_function_entrypoint hm cl pj req).headers = get_response_headers
    ∨ ((cloud_function_entrypoint hm cl pj req).headers = []
       ∧ ((cloud_function_entrypoint hm cl pj req).status = 400
          ∨ (cloud_function_entrypoint hm cl pj req).status = 403)) := by
  unfold cloud_function_entrypoint generate_content_core handle_options_request
  dsimp only
  repeat' split
  all_goals
    first
    | exact Or.inl rfl
    | exact Or.inr ⟨rfl, Or.inl rfl⟩
    | exact Or.inr ⟨rfl, Or.inr rfl⟩

/-- C2: the gateway ignores the `tools` and `system_instruction` body fields
entirely: a request carrying them is answered exactly like the same request
without them (so nothing derived from them can reach the model client), and
the configuration dictionary handed to the client never contains a `tools`
or `system_instruction` key.  This contradicts the claim (and the
repository's own tests, which rely on both fields being forwarded). -/
theorem C2_tools_system_instruction_ignored (hm : String → String)
    (cl : ModelClient) (pj : String → Option Json) (m pth raw : String)
    (sigOpt : Option String) (kvs : List (String × Json)) (tl si : Json) :
    cloud_function_entrypoint hm cl pj
      (Request.mk m pth sigOpt raw
        (some (Json.obj (kvs ++ [("tools", tl), ("system_instruction", si)])))) =
      cloud_function_entrypoint hm cl pj
        (Request.mk m pth sigOpt raw (some (Json.obj kvs)))
    ∧ (∀ (dp : List (String × Json)) (schema : Json),
        dictHasKey (client_config dp schema) "tools" = false
        ∧ dictHasKey (client_config dp schema) "system_instruction" = false) := by
  constructor
  · have hlk : ∀ k0 : String, ("tools" == k0) = false →
        ("system_instruction" == k0) = false →
        dictLookup (kvs ++ [("tools", tl), ("system_instruction", si)]) k0 =
          dictLookup kvs k0 := by
      intro k0 h1 h2
      rw [dictLookup_append, dictLookup_cons, h1, dictLookup_cons, h2]
      cases h : dictLookup kvs k0 <;> simp [h, Option.or, dictLookup]
    by_cases hm1 : (m == "OPTIONS") = true
    · simp [cloud_function_entrypoint, hm1]
    · by_cases hp1 : (pth == "/generate_content") = true
      · have hb1 : (Request.mk m pth sigOpt raw
            (some (Json.obj (kvs ++ [("tools", tl),
              ("system_instruction", si)])))).parsed_body =
            some (Json.obj (kvs ++ [("tools", tl),
              ("system_instruction", si)])) := rfl
        have hb2 : (Request.mk m pth sigOpt raw
            (some (Json.obj kvs))).parsed_body = some (Json.obj kvs) := rfl
        rw [entrypoint_obj_body hm cl pj _ _ (by simpa using hm1) (by simpa using hp1) hb1,
          entrypoint_obj_body hm cl pj _ _ (by simpa using hm1) (by simpa using hp1) hb2,
          hlk "contents" rfl rfl, hlk "parameters" rfl rfl,
          hlk "model_name" rfl rfl, hlk "response_schema" rfl rfl,
          hlk "history" rfl rfl]
        rfl
      · simp [cloud_function_entrypoint, hm1, hp1]
  · intro dp schema
    exact ⟨rfl, rfl⟩

/-- C8 counterexample: with the supplied (but falsy) schema `{}` and a raw
part whose text `"5"` parses fine, the normalizer emits a `{"text": ...}`
part, not the `{"object": ...}` part the claim requires for every supplied
schema. -/
theorem C8_counterexample :
    normalize_parts (Json.obj [])
      (fun s => if s = "5" then some (Json.num 5 0) else none)
      [RawPart.mk none (some "5")] =
      Except.ok [Json.obj [("text", Json.str "5")]]
    ∧ (Json.obj [("text", Json.str "5")]).objKeys ≠
        (Json.obj [("object", Json.num 5 0)]).objKeys :=
  ⟨rfl, by decide⟩

/-- C8 (amended): the response normalizer maps the raw parts in order,
without reordering, deduplicating or filtering — it agrees with mapping the
per-part classification over the list — where a function-call part becomes
`{"functionCall": ...}` unchanged; otherwise, when the supplied
responseSchema is truthy (non-empty, non-null), the part's text is parsed as
JSON into `{"object": ...}` and a parse failure propagates as an
UpstreamError (the `Gemini model error` prefix, answered with HTTP 500);
otherwise the part becomes `{"text": ...}`; an empty raw-parts list yields
an empty output list, not an error. -/
theorem C8_normalizer_refinement :
    (∀ (schema : Json) (pj : String → Option Json) (ps : List RawPart),
      normalize_parts schema pj ps = ps.mapM (normalize_part_spec schema pj))
    ∧ (∀ (schema : Json) (pj : String → Option Json),
        normalize_parts schema pj [] = Except.ok [])
    ∧ (∀ (schema : Json) (pj : String → Option Json) (ps : List RawPart)
        (rs : List Json), normalize_parts schema pj ps = Except.ok rs →
        rs.length = ps.length)
    ∧ (∀ (contents mn schema : Json) (pj : String → Option Json) (s : String),
        schema.truthy = true → pj s = none →
        gemini_generate contents Json.null mn schema (Json.arr [])
          (fun _ => Except.ok [RawPart.mk none (some s)]) pj =
          Except.error "Gemini model error: json.loads: invalid JSON in model response")
    ∧ (∀ (hm : String → String) (pj : String → Option Json)
        (m raw s : String) (schema : Json),
        m ≠ "OPTIONS" → schema.truthy = true → pj s = none →
        cloud_function_entrypoint hm
          (fun _ => Except.ok [RawPart.mk none (some s)]) pj
          (Request.mk m "/generate_content" (some (hm raw)) raw
            (some (Json.obj [("contents", Json.str "hi"),
              ("response_schema", schema)]))) =
          HttpResponse.mk
            (errorBody "Gemini model error: json.loads: invalid JSON in model response")
            500 get_response_headers) := by
  have hmapM : ∀ (schema : Json) (pj : String → Option Json) (ps : List RawPart),
      normalize_parts schema pj ps = ps.mapM (normalize_part_spec schema pj) := by
    intro schema pj ps
    induction ps with
    | nil => rfl
    | cons p rest ih =>
      rw [normalize_parts_cons, List.mapM_cons, ih]
      rfl
  have hlen : ∀ (schema : Json) (pj : String → Option Json) (ps : List RawPart)
      (rs : List Json), normalize_parts schema pj ps = Except.ok rs →
      rs.length = ps.length := by
    intro schema pj ps
    induction ps with
    | nil =>
      intro rs h
      cases h
      rfl
    | cons p rest ih =>
      intro rs h
      rw [normalize_parts_cons] at h
      cases hh : normalize_part_spec schema pj p with
      | error e =>
        rw [hh] at h
        cases h
      | ok hd =>
        rw [hh] at h
        cases ht : normalize_parts schema pj rest with
        | error e =>
          rw [ht] at h
          cases h
        | ok tl =>
          rw [ht] at h
          have hrs : (Except.ok (hd :: tl) : Except String (List Json)) =
              Except.ok rs := h
          cases hrs
          simp [ih _ ht]
  have hgen : ∀ (contents mn schema : Json) (pj : String → Option Json)
      (s : String), schema.truthy = true → pj s = none →
      gemini_generate contents Json.null mn schema (Json.arr [])
        (fun _ => Except.ok [RawPart.mk none (some s)]) pj =
        Except.error "Gemini model error: json.loads: invalid JSON in model response" := by
    intro contents mn schema pj s hs hpj
    have hspec : normalize_part_spec schema pj (RawPart.mk none (some s)) =
        Except.error "json.loads: invalid JSON in model response" := by
      simp [normalize_part_spec, hs, hpj]
    have hnorm : normalize_parts schema pj [RawPart.mk none (some s)] =
        Except.error "json.loads: invalid JSON in model response" := by
      rw [normalize_parts_cons, hspec]
      rfl
    show (match normalize_parts schema pj [RawPart.mk none (some s)] with
          | Except.ok r => Except.ok r
          | Except.error e => Except.error ("Gemini model error: " ++ e)) =
        Except.error "Gemini model error: json.loads: invalid JSON in model response"
    rw [hnorm]
    rfl
  refine ⟨hmapM, fun schema pj => rfl, hlen, hgen, ?_⟩
  intro hm pj m raw s schema hmeth hs hpj
  have hb : (Request.mk m "/generate_content" (some (hm raw)) raw
      (some (Json.obj [("contents", Json.str "hi"),
        ("response_schema", schema)]))).parsed_body =
      some (Json.obj [("contents", Json.str "hi"),
        ("response_schema", schema)]) := rfl
  rw [entrypoint_obj_body hm (fun _ => Except.ok [RawPart.mk none (some s)]) pj
    (Request.mk m "/generate_content" (some (hm raw)) raw
      (some (Json.obj [("contents", Json.str "hi"), ("response_schema", schema)])))
    [("contents", Json.str "hi"), ("response_schema", schema)]
    (beq_eq_false_iff_ne.mpr hmeth) (by simp) hb]
  have hsig : has_valid_signature hm (Request.mk m "/generate_content"
      (some (hm raw)) raw (some (Json.obj [("contents", Json.str "hi"),
        ("response_schema", schema)]))) = true := by
    simp [has_valid_signature]
  have h1 : (is_invalid_history ((dictLookup [("contents", Json.str "hi"),
      ("response_schema", schema)] "history").getD (Json.arr []))).isSome = false := rfl
  have h2 : ((dictLookup [("contents", Json.str "hi"),
      ("response_schema", schema)] "contents").getD Json.null).isNull = false := rfl
  rw [h1, h2, hsig]
  simp only [Bool.false_eq_true, if_false, Bool.not_true]
  have hrw := hgen (Json.str "hi") (Json.str "gemini-1.5-flash") schema pj s hs hpj
  rw [show (dictLookup [("contents", Json.str "hi"), ("response_schema", schema)]
      "response_schema").getD Json.null = schema from rfl]
  rw [show (dictLookup [("contents", Json.str "hi"), ("response_schema", schema)]
      "parameters").getD Json.null = Json.null from rfl]
  rw [show (dictLookup [("contents", Json.str "hi"), ("response_schema", schema)]
      "contents").getD Json.null = Json.str "hi" from rfl]
  rw [show (dictLookup [("contents", Json.str "hi"), ("response_schema", schema)]
      "model_name").getD (Json.str "gemini-1.5-flash") =
      Json.str "gemini-1.5-flash" from rfl]
  rw [show (dictLookup [("contents", Json.str "hi"), ("response_schema", schema)]
      "history").getD (Json.arr []) = Json.arr [] from rfl]
  rw [hrw]

/-- C8 witness: at a concrete request with a truthy schema and a
non-JSON-parseable model text, the handler answers 500 with the upstream
error message and CORS headers. -/
theorem C8_normalizer_refinement_witness :
    cloud_function_entrypoint (fun _ => "s")
      (fun _ => Except.ok [RawPart.mk none (some "oops")]) (fun _ => none)
      (Request.mk "POST" "/generate_content" (some "s") "raw"
        (some (Json.obj [("contents", Json.str "hi"),
          ("response_schema", Json.obj [("type", Json.str "object")])]))) =
      HttpResponse.mk
        (errorBody "Gemini model error: json.loads: invalid JSON in model response")
        500 get_response_headers :=
  C8_normalizer_refinement.2.2.2.2 (fun _ => "s") (fun _ => none) "POST" "raw"
    "oops" (Json.obj [("type", Json.str "object")]) (by decide) rfl rfl

end RelayGateway
